import Mathlib

/-!
The isolation bootstrap of dockerx.

A shallow embedding of `container/container_process.go`, `init.go` and `main.go`.

The Go code is effectful: it creates a process, waits for it, mounts file systems,
replaces its own image and writes log records.  Every effectful call is modelled by
explicit state passing over a `World` that records the calls made so far (`trace`)
and the child processes that were created, while the answers of the operating
system are read from an `OS` value, which the theorems quantify over.

Between `os.Args` and the action of a command stands the command-line library
`github.com/urfave/cli` on top of package `flag`; their parsing of flags, the
built-in help and the dispatch to a command are modelled as well, since they decide
which argument the init action gets to see.
-/

set_option linter.unusedVariables false

namespace Dockerx

/-! ## Constants of package `syscall` (linux) -/

/-- Value of `syscall.CLONE_NEWNS`. -/
def CLONE_NEWNS : Nat := 0x20000
/-- Value of `syscall.CLONE_NEWUTS`. -/
def CLONE_NEWUTS : Nat := 0x4000000
/-- Value of `syscall.CLONE_NEWIPC`. -/
def CLONE_NEWIPC : Nat := 0x8000000
/-- Value of `syscall.CLONE_NEWPID`. -/
def CLONE_NEWPID : Nat := 0x20000000
/-- Value of `syscall.CLONE_NEWNET`. -/
def CLONE_NEWNET : Nat := 0x40000000

/-- Value of `syscall.MS_NOSUID`. -/
def MS_NOSUID : Nat := 0x2
/-- Value of `syscall.MS_NODEV`. -/
def MS_NODEV : Nat := 0x4
/-- Value of `syscall.MS_NOEXEC`. -/
def MS_NOEXEC : Nat := 0x8
/-- Value of `syscall.MS_REC`. -/
def MS_REC : Nat := 0x4000
/-- Value of `syscall.MS_PRIVATE`. -/
def MS_PRIVATE : Nat := 0x40000

/-! ## Data model -/

/-- A non-nil Go `error`, identified with the text its `Error()` method returns. -/
abbrev GoError := String

/-- The Go type `error`: `none` is `nil`. -/
abbrev error := Option GoError

/-- The three standard streams of the running process (`os.Stdin`, `os.Stdout`, `os.Stderr`). -/
inductive File where
  | Stdin
  | Stdout
  | Stderr
  deriving DecidableEq, Repr

/-- The part of `syscall.SysProcAttr` the program sets. -/
structure SysProcAttr where
  Cloneflags : Nat
  deriving DecidableEq, Repr

/-- The fields of `exec.Cmd` the program touches; an unset (nil) field is `none`.
`Args` holds the whole argument vector, the program name included as `Args[0]`. -/
structure Cmd where
  Path : String
  Args : List String
  Stdin : Option File
  Stdout : Option File
  Stderr : Option File
  SysProcAttr : Option SysProcAttr
  deriving DecidableEq, Repr

/-- Severity of a log record. -/
inductive Level where
  | info
  | error
  | fatal
  deriving DecidableEq, Repr

/-- The formatter installed in the logger. -/
inductive Formatter where
  | text
  | json
  deriving DecidableEq, Repr

/-- An effect issued by the program.  `print` is a line written by the command-line
library and `help` the help text of the app (no topic) or of a command. -/
inductive Event where
  | mount (source target fstype : String) (flags : Nat) (data : String)
  | exec (argv0 : String) (argv : List String) (envv : List String)
  | start (c : Cmd)
  | wait (c : Cmd)
  | log (lvl : Level) (msg : String)
  | logf (lvl : Level) (format : String) (args : List String)
  | print (line : String)
  | help (topic : Option String)
  | exit (code : Int)
  deriving DecidableEq, Repr

/-- The operating system as the program sees it.  `answer t` is the error (or nil)
with which the fallible call that is last in the history `t` comes back; for
`Event.exec` the answer `none` means that the image was replaced. -/
structure OS where
  answer : List Event → error
  Environ : List String
  Getpid : Int
  Args : List String

/-- The state threaded through the program: the effects issued so far, the child
processes created so far, and the configuration of the process-wide logger. -/
structure World where
  trace : List Event
  children : List Cmd
  formatter : Formatter
  logOutput : File

/-- How a call ends: it returns a value, or the process image was replaced by
`syscall.Exec`, or the process was terminated by `os.Exit`. -/
inductive Ret (α : Type) where
  | returned (a : α)
  | replaced
  | exited (code : Int)
  deriving DecidableEq, Repr

/-- Append one effect to the trace. -/
def World.emit (w : World) (e : Event) : World :=
  { w with trace := w.trace ++ [e] }

/-! ## Library calls -/

/-- The function `exec.Command` for a name with a directory component (no PATH
lookup takes place): `Path` is the name and `Args` is the name followed by `arg`. -/
def execCommand (name : String) (arg : List String) : Cmd :=
  { Path := name, Args := name :: arg, Stdin := none, Stdout := none, Stderr := none,
    SysProcAttr := none }

/-- The method `(*exec.Cmd).Start`: a child is created exactly when it returns nil. -/
def Cmd.Start (os : OS) (w : World) (c : Cmd) : World × error :=
  let w1 := w.emit (Event.start c)
  match os.answer w1.trace with
  | none => ({ w1 with children := w1.children ++ [c] }, none)
  | some e => (w1, some e)

/-- The method `(*exec.Cmd).Wait`. -/
def Cmd.Wait (os : OS) (w : World) (c : Cmd) : World × error :=
  let w1 := w.emit (Event.wait c)
  (w1, os.answer w1.trace)

/-- The function `syscall.Mount`. -/
def syscallMount (os : OS) (w : World) (source target fstype : String) (flags : Nat)
    (data : String) : World × error :=
  let w1 := w.emit (Event.mount source target fstype flags data)
  (w1, os.answer w1.trace)

/-- The function `syscall.Exec`: on success the image is replaced and the call does
not return, otherwise it returns a non-nil error. -/
def syscallExec (os : OS) (w : World) (argv0 : String) (argv envv : List String) :
    World × Ret error :=
  let w1 := w.emit (Event.exec argv0 argv envv)
  match os.answer w1.trace with
  | none => (w1, Ret.replaced)
  | some e => (w1, Ret.returned (some e))

/-- The function `os.Exit`. -/
def osExit {α : Type} (w : World) (code : Int) : World × Ret α :=
  (w.emit (Event.exit code), Ret.exited code)

/-- The functions `log.Info` and `log.Error` applied to the already joined operands. -/
def logPrint (w : World) (lvl : Level) (msg : String) : World :=
  w.emit (Event.log lvl msg)

/-- The functions `log.Infof` and `log.Errorf`. -/
def logPrintf (w : World) (lvl : Level) (format : String) (args : List String) : World :=
  w.emit (Event.logf lvl format args)

/-- The function `log.Fatal`: the record is written, then the process exits with 1. -/
def logFatal {α : Type} (w : World) (msg : String) : World × Ret α :=
  osExit (w.emit (Event.log Level.fatal msg)) 1

/-! ## container/container_process.go -/

/-- Build the descriptor of the init process. -/
def createInitProcess (tty : Bool) (command : String) : Cmd :=
  let args := ["init", command]
  let cmd := execCommand "/proc/self/exe" args
  let attr : SysProcAttr :=
    { Cloneflags := CLONE_NEWUTS ||| CLONE_NEWPID ||| CLONE_NEWNS |||
        CLONE_NEWNET ||| CLONE_NEWIPC }
  let cmd := { cmd with SysProcAttr := some attr }
  if tty then
    { cmd with Stdin := some File.Stdin, Stdout := some File.Stdout,
               Stderr := some File.Stderr }
  else
    cmd

/-- The launcher. -/
def StartContainer (os : OS) (w : World) (tty : Bool) (cmd : String) : World × Ret Unit :=
  let parent := createInitProcess tty cmd
  let (w, err) := Cmd.Start os w parent
  let w := match err with
    | some e => logPrint w Level.error e
    | none => w
  let w := logPrint w Level.info ("parent.Wait() begin-----------" ++ toString os.Getpid)
  let (w, _) := Cmd.Wait os w parent
  let w := logPrint w Level.info ("parent.Wait() end-----------" ++ toString os.Getpid)
  osExit w (-1)

/-- The bootstrapper, run inside the new namespaces. -/
def RunContainerInitProcess (os : OS) (w : World) (command : String) (args : List String) :
    World × Ret error :=
  let (w, _) := syscallMount os w "" "/" "" (MS_PRIVATE ||| MS_REC) ""
  let defaultMountFlags := MS_NOEXEC ||| MS_NOSUID ||| MS_NODEV
  let (w, _) := syscallMount os w "proc" "/proc" "proc" defaultMountFlags ""
  let argv := [command]
  let w := logPrint w Level.info "syscall.Exec-------执行开始"
  match syscallExec os w command argv os.Environ with
  | (w, Ret.returned err) =>
    let w := match err with
      | some e => logPrintf w Level.error e []
      | none => w
    let w := logPrint w Level.info "syscall.Exec-------执行完成"
    (w, Ret.returned none)
  | (w, Ret.replaced) => (w, Ret.replaced)
  | (w, Ret.exited code) => (w, Ret.exited code)

/-! ## Packages `strconv` and `flag` -/

/-- The function `strconv.ParseBool`. -/
def parseBool (s : String) : Option Bool :=
  if s ∈ ["1", "t", "T", "TRUE", "true", "True"] then some true
  else if s ∈ ["0", "f", "F", "FALSE", "false", "False"] then some false
  else none

/-- The verb `%q` on a value that needs no escaping: the value between double quotes. -/
def goQuote (s : String) : String :=
  String.mk ([Char.ofNat 34] ++ s.data ++ [Char.ofNat 34])

/-- What `(*flag.FlagSet).parseOne` makes of one argument: an operand (parsing stops
and the argument stays), the terminator `--` (parsing stops and the argument is
dropped), a malformed flag, or a flag with its name and the value given after `=`. -/
inductive Arg where
  | operand
  | terminator
  | bad
  | flag (name : String) (value : Option String)
  deriving DecidableEq, Repr

/-- The test `len(s) < 2 || s[0] != '-'` of `parseOne`: such an argument is an operand,
never a flag. -/
def isOperand (s : String) : Bool :=
  match s.data with
  | c0 :: _ :: _ => c0 != '-'
  | _ => true

/-- The first half of `parseOne`: count the dashes, stop at `--`, reject a name that
is empty or starts with `-` or `=`, and split the name at the first `=`. -/
def classify (s : String) : Arg :=
  match s.data with
  | c0 :: c1 :: tl =>
    if c0 != '-' then Arg.operand
    else if c1 == '-' && tl.isEmpty then Arg.terminator
    else
      let name := if c1 == '-' then tl else c1 :: tl
      match name with
      | [] => Arg.bad
      | n0 :: ntl =>
        if n0 == '-' || n0 == '=' then Arg.bad
        else
          match ntl.dropWhile (fun ch => ch != '=') with
          | [] => Arg.flag (String.mk name) none
          | _ :: v =>
            Arg.flag (String.mk (n0 :: ntl.takeWhile (fun ch => ch != '='))) (some (String.mk v))
  | _ => Arg.operand

/-- The state of a `flag.FlagSet` after parsing: the flags that were set with their
values (the most recent first) and the arguments left over. -/
structure FlagSet where
  actual : List (String × String)
  args : List String
  deriving DecidableEq, Repr

/-- The method `(*flag.FlagSet).Parse` with error handling `ContinueOnError`.
`formal` lists the defined flag names, each with whether the flag is boolean; a
flag that is not boolean takes any value, as a string flag does.  The result is the
state in which parsing stopped and the error, if any. -/
def flagParse (formal : List (String × Bool)) :
    List String → List (String × String) → FlagSet × error
  | [], actual => ({ actual := actual, args := [] }, none)
  | s :: rest, actual =>
    match classify s with
    | Arg.operand => ({ actual := actual, args := s :: rest }, none)
    | Arg.terminator => ({ actual := actual, args := rest }, none)
    | Arg.bad => ({ actual := actual, args := s :: rest }, some ("bad flag syntax: " ++ s))
    | Arg.flag name value =>
      match formal.lookup name with
      | none =>
        if name == "help" || name == "h" then
          ({ actual := actual, args := rest }, some "flag: help requested")
        else
          ({ actual := actual, args := rest },
            some ("flag provided but not defined: -" ++ name))
      | some true =>
        match value with
        | some v =>
          match parseBool v with
          | some b => flagParse formal rest ((name, toString b) :: actual)
          | none =>
            ({ actual := actual, args := rest },
              some ("invalid boolean value " ++ goQuote v ++ " for -" ++ name ++
                ": parse error"))
        | none => flagParse formal rest ((name, "true") :: actual)
      | some false =>
        match value with
        | some v => flagParse formal rest ((name, v) :: actual)
        | none =>
          match rest with
          | v :: rest1 => flagParse formal rest1 ((name, v) :: actual)
          | [] => ({ actual := actual, args := [] }, some ("flag needs an argument: -" ++ name))

/-! ## Package `cli` -/

/-- An effectless description of a `cli.Flag`: its names and whether it is a
`cli.BoolFlag`. -/
structure Flag where
  Names : List String
  IsBool : Bool
  deriving DecidableEq, Repr

/-- The variable `cli.HelpFlag`. -/
def HelpFlag : Flag := { Names := ["help", "h"], IsBool := true }

/-- The variable `cli.VersionFlag`. -/
def VersionFlag : Flag := { Names := ["version", "v"], IsBool := true }

/-- The names a list of flags defines in a flag set. -/
def formalOf (flags : List Flag) : List (String × Bool) :=
  flags.foldr (fun f acc => f.Names.map (fun n => (n, f.IsBool)) ++ acc) []

/-- The function `normalizeFlags`: a flag with several names that was set under one
of them gets the value under its other names; setting it under two names is an
error.  `visited` are the names that were set on the command line. -/
def normalizeFlags (visited : List String) :
    List Flag → List (String × String) → Except GoError (List (String × String))
  | [], actual => Except.ok actual
  | f :: fs, actual =>
    match f.Names.filter (fun n => visited.contains n) with
    | [] => normalizeFlags visited fs actual
    | [n] =>
      normalizeFlags visited fs
        ((f.Names.filter (fun m => !visited.contains m)).map
          (fun m => (m, (actual.lookup n).getD "")) ++ actual)
    | n :: m :: _ =>
      Except.error ("Cannot use two forms of the same flag: " ++ m ++ " " ++ n)

/-- The function `argIsFlag`: whether the argument names one of the given flags. -/
def argIsFlag (commandFlags : List Flag) (arg : String) : Bool :=
  if arg == "-" || arg == "--" then false
  else if arg.data.take 1 != ['-'] then false
  else
    let a := arg.data
    let a := if a.take 2 == ['-', '-'] then a.drop 2 else a
    let a := if a.take 1 == ['-'] then a.drop 1 else a
    let a := a.takeWhile (fun ch => ch != '=')
    commandFlags.any (fun f => f.Names.contains (String.mk a))

/-- The loop of the function `reorderArgs`, which moves the flags of the command in
front of the other arguments and leaves alone what follows `--`. -/
def reorderLoop (commandFlags : List Flag) :
    List String → Bool → List String → List String → List String
  | [], _, reorderedArgs, remainingArgs => reorderedArgs ++ remainingArgs
  | arg :: rest, nextIndexMayContainValue, reorderedArgs, remainingArgs =>
    if nextIndexMayContainValue && !argIsFlag commandFlags arg then
      reorderLoop commandFlags rest false (reorderedArgs ++ [arg]) remainingArgs
    else if arg == "--" then
      reorderedArgs ++ (["--"] ++ remainingArgs ++ rest)
    else if argIsFlag commandFlags arg then
      reorderLoop commandFlags rest (!arg.data.contains '=') (reorderedArgs ++ [arg])
        remainingArgs
    else
      reorderLoop commandFlags rest nextIndexMayContainValue reorderedArgs
        (remainingArgs ++ [arg])

/-- The function `reorderArgs`. -/
def reorderArgs (commandFlags : List Flag) (args : List String) : List String :=
  reorderLoop commandFlags args false [] []

/-- The value `cli.Context` handed to an action: the arguments left after the flags
were parsed, the flags set at this level and the flags set at the level of the app. -/
structure Context where
  args : List String
  flags : List (String × String)
  globalFlags : List (String × String)

/-- The call `context.Args().Get(n)`: the n-th argument, the empty string when there
is none. -/
def Context.Get (context : Context) (n : Nat) : String :=
  context.args.getD n ""

/-- The call `context.Bool(name)`. -/
def Context.Bool (context : Context) (name : String) : Bool :=
  context.flags.lookup name == some "true"

/-- The type `cli.ActionFunc`.  An error that is returned is an ordinary error; an
action that ends the process does so through `Ret.exited`. -/
abbrev ActionFunc := Context → OS → World → World × Ret error

/-- The fields of `cli.Command` that decide what is run, for a command without
subcommands and with default settings. -/
structure Command where
  Name : String
  Aliases : List String
  Flags : List Flag
  Action : ActionFunc

/-- The method `Command.HasName`. -/
def Command.HasName (c : Command) (name : String) : Bool :=
  (c.Name :: c.Aliases).contains name

/-- The fields of `cli.App` that decide what is run. -/
structure App where
  Name : String
  Version : String
  Commands : List Command
  Flags : List Flag
  Before : World → World × error
  Action : ActionFunc

/-- The method `(*App).Command`: the first command that has the name. -/
def App.Command (commands : List Command) (name : String) : Option Command :=
  commands.find? (fun c => c.HasName name)

/-- The method `(*App).appendFlag`. -/
def appendFlag (flags : List Flag) (f : Flag) : List Flag :=
  if flags.contains f then flags else flags ++ [f]

/-- The variable `cli.helpCommand`, whose action is the default action of an app. -/
def helpCommand (helpAction : ActionFunc) : Command :=
  { Name := "help", Aliases := ["h"], Flags := [], Action := helpAction }

/-- The functions `ShowAppHelp` (no topic) and `ShowCommandHelp` for an existing
command: the help text is written. -/
def showHelp (w : World) (topic : Option String) : World :=
  w.emit (Event.help topic)

/-- The method `Command.Run` on the context of the app, whose first argument is the
name of the command: the flags of the command and the help flag are parsed from the
reordered arguments that follow the name; a usage error is reported and returned,
a help flag shows the help, otherwise the action runs on what is left. -/
def Command.Run (c : Command) (os : OS) (w : World) (ctx : Context) : World × Ret error :=
  let flags := c.Flags ++ [HelpFlag]
  let (set, err) := flagParse (formalOf flags) (reorderArgs flags ctx.args.tail) []
  let parsed : Except GoError (List (String × String)) :=
    match err with
    | some e => Except.error e
    | none => normalizeFlags (set.actual.map Prod.fst) flags set.actual
  match parsed with
  | Except.error e =>
    let w := w.emit (Event.print ("Incorrect Usage: " ++ e))
    let w := showHelp w (some c.Name)
    (w, Ret.returned (some e))
  | Except.ok actual =>
    let context : Context := { args := set.args, flags := actual, globalFlags := ctx.flags }
    if context.Bool "h" || context.Bool "help" then
      (showHelp w (some c.Name), Ret.returned none)
    else
      c.Action context os w

/-- The method `(*App).Run` of release 1.22 of `github.com/urfave/cli`, for an app
that keeps the default settings.  `helpAction` is the action of the help command of
the library.  Setup adds the help command, the help flag and the version flag; the
flags of the app are parsed from the arguments after the program name; a usage error
is reported and returned, the help and version flags print and return nil; then
`Before` runs, and the command named by the first argument left runs, or else the
action of the app. -/
def App.Run (app : App) (helpAction : ActionFunc) (os : OS) (w : World)
    (arguments : List String) : World × Ret error :=
  let noHelp := (App.Command app.Commands "help").isNone
  let commands := if noHelp then app.Commands ++ [helpCommand helpAction] else app.Commands
  let flags := if noHelp then appendFlag app.Flags HelpFlag else app.Flags
  let flags := if app.Version == "" then flags else appendFlag flags VersionFlag
  let (set, err) := flagParse (formalOf flags) arguments.tail []
  match normalizeFlags (set.actual.map Prod.fst) flags set.actual with
  | Except.error nerr =>
    let w := w.emit (Event.print nerr)
    let w := showHelp w none
    (w, Ret.returned (some nerr))
  | Except.ok actual =>
    let context : Context := { args := set.args, flags := actual, globalFlags := [] }
    match err with
    | some e =>
      let w := w.emit (Event.print ("Incorrect Usage. " ++ e))
      let w := showHelp w none
      (w, Ret.returned (some e))
    | none =>
      if context.Bool "help" || context.Bool "h" then
        (showHelp w none, Ret.returned none)
      else if app.Version != "" && (context.Bool "version" || context.Bool "v") then
        (w.emit (Event.print (app.Name ++ " version " ++ app.Version)), Ret.returned none)
      else
        match app.Before w with
        | (w, some e) => (w, Ret.returned (some e))
        | (w, none) =>
          match context.args with
          | [] => app.Action context os w
          | name :: _ =>
            match App.Command commands name with
            | some c => c.Run os w context
            | none => app.Action context os w

/-! ## init.go -/

/-- The command `init`. -/
def initCommand : Command :=
  { Name := "init"
    Aliases := []
    Flags := []
    Action := fun context os w =>
      let cmd := context.Get 0
      let w := logPrintf w Level.info "command: %s" [cmd]
      let (w, err) := RunContainerInitProcess os w cmd []
      (w, err) }

/-! ## main.go -/

/-- The entry point.  The command `run` is not among the sources and is a
parameter, as is the action of the help command, which `cli.NewApp` installs as the
action of the app.  The result `Ret.returned ()` says that `main` returned. -/
def main (runCommand : Command) (helpAction : ActionFunc) (os : OS) (w : World) :
    World × Ret Unit :=
  let app : App :=
    { Name := "dockerv"
      Version := "release-1.0"
      Commands := [initCommand, runCommand]
      Flags := []
      Before := fun w => ({ w with formatter := Formatter.json, logOutput := File.Stdout }, none)
      Action := helpAction }
  match app.Run helpAction os w os.Args with
  | (w, Ret.returned (some err)) => logFatal w err
  | (w, Ret.returned none) => (w, Ret.returned ())
  | (w, Ret.replaced) => (w, Ret.replaced)
  | (w, Ret.exited code) => (w, Ret.exited code)

/-- The exit status a parent observes: 0 when `main` returns, the low eight bits of
the code given to `os.Exit`, and none of this program when its image was replaced. -/
def exitStatus : Ret Unit → Option Nat
  | Ret.returned _ => some 0
  | Ret.exited code => some (code % 256).toNat
  | Ret.replaced => none

/-! ## Observations on traces -/

/-- The world of a process that has done nothing yet. -/
def World.start : World :=
  { trace := [], children := [], formatter := Formatter.text, logOutput := File.Stderr }

/-- The effects added to the trace between the worlds `w` and `w1`. -/
def issued (w w1 : World) : List Event :=
  w1.trace.drop w.trace.length

/-- Whether an effect is a system call of the bootstrapper (a mount or an exec). -/
def Event.isSyscall : Event → Bool
  | Event.mount _ _ _ _ _ => true
  | Event.exec _ _ _ => true
  | _ => false

/-- Whether an effect is a mount. -/
def Event.isMount : Event → Bool
  | Event.mount _ _ _ _ _ => true
  | _ => false

/-- Whether an effect is a call of `Start`. -/
def Event.isStart : Event → Bool
  | Event.start _ => true
  | _ => false

/-- Whether an effect is a call of `Wait`. -/
def Event.isWait : Event → Bool
  | Event.wait _ => true
  | _ => false

/-- Whether an effect is a log record. -/
def Event.isLog : Event → Bool
  | Event.log _ _ => true
  | Event.logf _ _ _ => true
  | _ => false

/-- Whether an effect is an image replacement. -/
def Event.isExec : Event → Bool
  | Event.exec _ _ _ => true
  | _ => false

/-- The number of calls of `Wait` made between the worlds `w` and `w1`. -/
def waitCalls (w w1 : World) : Nat :=
  ((issued w w1).filter Event.isWait).length

/-- The number of child processes created between the worlds `w` and `w1`. -/
def childrenCreated (w w1 : World) : Nat :=
  w1.children.length - w.children.length

/-- An operating system in which the command `/no/such/command` handed to the init
entry point does not exist: every exec fails, every other call succeeds. -/
def missingCommandOS : OS :=
  { answer := fun t =>
      match t.getLast? with
      | some (Event.exec _ _ _) => some "no such file or directory"
      | _ => none
    Environ := ["PATH=/usr/bin:/bin"]
    Getpid := 1
    Args := ["/proc/self/exe", "init", "/no/such/command"] }

/-- An operating system that refuses to create the child (the launcher lacks the
privilege to create namespaces); a wait on the descriptor that was never started
then fails as well. -/
def unprivilegedOS : OS :=
  { answer := fun t =>
      match t.getLast? with
      | some (Event.start _) => some "fork/exec /proc/self/exe: operation not permitted"
      | some (Event.wait _) => some "exec: not started"
      | _ => none
    Environ := ["PATH=/usr/bin:/bin"]
    Getpid := 4242
    Args := ["dockerv", "run", "-it", "/bin/sh"] }

/-- An operating system in which every call succeeds. -/
def permissiveOS : OS :=
  { answer := fun _ => none
    Environ := ["PATH=/usr/bin:/bin"]
    Getpid := 4242
    Args := ["dockerv", "run", "-it", "/bin/sh"] }

/-- Claim C1: for every tty flag and command, the descriptor built by
`createInitProcess` has path `/proc/self/exe` and its argument vector is that path
followed by exactly `init` and the command. -/
theorem createInitProcess_reinvokes_self (tty : Bool) (command : String) :
    (createInitProcess tty command).Path = "/proc/self/exe" ∧
    (createInitProcess tty command).Args = ["/proc/self/exe", "init", command] ∧
    (createInitProcess tty command).Args.tail = ["init", command] := by
  cases tty <;> simp [createInitProcess, execCommand]

/-- Claim C2: the clone flags of the descriptor are the bitwise OR of the five
namespace flags; a bit is set exactly when it is the bit of one of the five flags,
and the value is the same for every tty flag and command. -/
theorem createInitProcess_cloneflags (tty : Bool) (command : String) :
    (createInitProcess tty command).SysProcAttr =
      some { Cloneflags := CLONE_NEWUTS ||| CLONE_NEWPID ||| CLONE_NEWNS |||
                             CLONE_NEWNET ||| CLONE_NEWIPC } ∧
    (∀ i : Nat, (CLONE_NEWUTS ||| CLONE_NEWPID ||| CLONE_NEWNS |||
                  CLONE_NEWNET ||| CLONE_NEWIPC).testBit i = true ↔
      (2 ^ i = CLONE_NEWUTS ∨ 2 ^ i = CLONE_NEWPID ∨ 2 ^ i = CLONE_NEWNS ∨
       2 ^ i = CLONE_NEWNET ∨ 2 ^ i = CLONE_NEWIPC)) ∧
    (∀ (tty1 : Bool) (command1 : String),
      (createInitProcess tty1 command1).SysProcAttr =
        (createInitProcess tty command).SysProcAttr) := by
  refine ⟨?_, ?_, ?_⟩
  · cases tty <;> simp [createInitProcess, execCommand]
  · intro i
    have hv : CLONE_NEWUTS ||| CLONE_NEWPID ||| CLONE_NEWNS ||| CLONE_NEWNET ||| CLONE_NEWIPC
        = 0x6c020000 := by decide
    rw [hv]
    simp only [CLONE_NEWUTS, CLONE_NEWPID, CLONE_NEWNS, CLONE_NEWNET, CLONE_NEWIPC]
    by_cases hi : i < 31
    · interval_cases i <;> decide
    · have h31 : 31 ≤ i := by omega
      have hpow : 2 ^ 31 ≤ 2 ^ i := Nat.pow_le_pow_right (by decide) h31
      have hlt : 0x6c020000 < 2 ^ i := lt_of_lt_of_le (by norm_num) hpow
      rw [Nat.testBit_lt_two_pow hlt]
      have h2 : (2:Nat) ^ 31 = 2147483648 := by norm_num
      constructor
      · intro h; cases h
      · intro h; omega
  · intro tty1 command1
    cases tty <;> cases tty1 <;> simp [createInitProcess, execCommand]

/-- Claim C3: the three stream fields are bound to the launcher's stdin, stdout and
stderr exactly when tty is true; when tty is false the three fields are unset; path,
arguments and clone flags are the same in both cases. -/
theorem createInitProcess_streams (tty : Bool) (command : String) :
    (((createInitProcess tty command).Stdin = some File.Stdin ∧
      (createInitProcess tty command).Stdout = some File.Stdout ∧
      (createInitProcess tty command).Stderr = some File.Stderr) ↔ tty = true) ∧
    (((createInitProcess tty command).Stdin = none ∧
      (createInitProcess tty command).Stdout = none ∧
      (createInitProcess tty command).Stderr = none) ↔ tty = false) ∧
    (createInitProcess true command).Path = (createInitProcess false command).Path ∧
    (createInitProcess true command).Args = (createInitProcess false command).Args ∧
    (createInitProcess true command).SysProcAttr =
      (createInitProcess false command).SysProcAttr := by
  cases tty <;> simp [createInitProcess, execCommand]

/-! ## Traces of the launcher and of the bootstrapper -/

theorem StartContainer_trace (os : OS) (w : World) (tty : Bool) (cmd : String) :
    (StartContainer os w tty cmd).1.trace =
      w.trace ++ ([Event.start (createInitProcess tty cmd)] ++
        (match os.answer (w.trace ++ [Event.start (createInitProcess tty cmd)]) with
          | some e => [Event.log Level.error e]
          | none => []) ++
        [Event.log Level.info ("parent.Wait() begin-----------" ++ toString os.Getpid),
         Event.wait (createInitProcess tty cmd),
         Event.log Level.info ("parent.Wait() end-----------" ++ toString os.Getpid),
         Event.exit (-1)]) := by
  unfold StartContainer Cmd.Start Cmd.Wait logPrint osExit World.emit
  cases h : os.answer (w.trace ++ [Event.start (createInitProcess tty cmd)]) <;> simp [h]

theorem StartContainer_children (os : OS) (w : World) (tty : Bool) (cmd : String) :
    (StartContainer os w tty cmd).1.children =
      w.children ++
        (match os.answer (w.trace ++ [Event.start (createInitProcess tty cmd)]) with
          | some _ => []
          | none => [createInitProcess tty cmd]) := by
  unfold StartContainer Cmd.Start Cmd.Wait logPrint osExit World.emit
  cases h : os.answer (w.trace ++ [Event.start (createInitProcess tty cmd)]) <;> simp [h]

theorem StartContainer_ret (os : OS) (w : World) (tty : Bool) (cmd : String) :
    (StartContainer os w tty cmd).2 = Ret.exited (-1) := by
  unfold StartContainer Cmd.Start Cmd.Wait logPrint osExit World.emit
  cases h : os.answer (w.trace ++ [Event.start (createInitProcess tty cmd)]) <;> simp [h]

theorem RunContainerInitProcess_trace (os : OS) (w : World) (command : String)
    (args : List String) :
    (RunContainerInitProcess os w command args).1.trace =
      w.trace ++ ([Event.mount "" "/" "" (MS_PRIVATE ||| MS_REC) "",
        Event.mount "proc" "/proc" "proc" (MS_NOEXEC ||| MS_NOSUID ||| MS_NODEV) "",
        Event.log Level.info "syscall.Exec-------执行开始",
        Event.exec command [command] os.Environ] ++
        (match os.answer (w.trace ++ [Event.mount "" "/" "" (MS_PRIVATE ||| MS_REC) "",
            Event.mount "proc" "/proc" "proc" (MS_NOEXEC ||| MS_NOSUID ||| MS_NODEV) "",
            Event.log Level.info "syscall.Exec-------执行开始",
            Event.exec command [command] os.Environ]) with
          | some e => [Event.logf Level.error e [],
                       Event.log Level.info "syscall.Exec-------执行完成"]
          | none => [])) := by
  unfold RunContainerInitProcess syscallMount syscallExec logPrint logPrintf World.emit
  cases h : os.answer (w.trace ++ [Event.mount "" "/" "" (MS_PRIVATE ||| MS_REC) "",
            Event.mount "proc" "/proc" "proc" (MS_NOEXEC ||| MS_NOSUID ||| MS_NODEV) "",
            Event.log Level.info "syscall.Exec-------执行开始",
            Event.exec command [command] os.Environ]) <;> simp [h]

theorem RunContainerInitProcess_ret (os : OS) (w : World) (command : String)
    (args : List String) :
    (RunContainerInitProcess os w command args).2 =
        (match os.answer (w.trace ++ [Event.mount "" "/" "" (MS_PRIVATE ||| MS_REC) "",
            Event.mount "proc" "/proc" "proc" (MS_NOEXEC ||| MS_NOSUID ||| MS_NODEV) "",
            Event.log Level.info "syscall.Exec-------执行开始",
            Event.exec command [command] os.Environ]) with
          | some _ => Ret.returned none
          | none => Ret.replaced) := by
  unfold RunContainerInitProcess syscallMount syscallExec logPrint logPrintf World.emit
  cases h : os.answer (w.trace ++ [Event.mount "" "/" "" (MS_PRIVATE ||| MS_REC) "",
            Event.mount "proc" "/proc" "proc" (MS_NOEXEC ||| MS_NOSUID ||| MS_NODEV) "",
            Event.log Level.info "syscall.Exec-------执行开始",
            Event.exec command [command] os.Environ]) <;> simp [h]

theorem issued_append (w w1 : World) (l : List Event) (h : w1.trace = w.trace ++ l) :
    issued w w1 = l := by
  simp [issued, h]

/-! ## The command line -/

theorem classify_of_isOperand (s : String) (h : isOperand s = true) :
    classify s = Arg.operand := by
  unfold isOperand at h
  unfold classify
  rcases hs : s.data with _ | ⟨c0, _ | ⟨c1, tl⟩⟩
  · rfl
  · rfl
  · rw [hs] at h
    have h1 : (c0 != '-') = true := h
    simp only [h1, if_true]

theorem flagParse_operand (formal : List (String × Bool)) (s : String) (rest : List String)
    (actual : List (String × String)) (h : classify s = Arg.operand) :
    flagParse formal (s :: rest) actual = ({ actual := actual, args := s :: rest }, none) := by
  simp [flagParse, h]

theorem classify_init : classify "init" = Arg.operand := by
  decide

theorem normalizeFlags_nil (flags : List Flag) (actual : List (String × String)) :
    normalizeFlags [] flags actual = Except.ok actual := by
  induction flags with
  | nil => rfl
  | cons f fs ih => simp [normalizeFlags, ih]

theorem reorderArgs_single (flags : List Flag) (s : String) : reorderArgs flags [s] = [s] := by
  unfold reorderArgs
  simp only [reorderLoop, Bool.false_and]
  by_cases h1 : s == "--"
  · have : s = "--" := by simpa using h1
    simp [this]
  · by_cases h2 : argIsFlag flags s <;> simp [h1, h2, reorderLoop]

theorem App_Command_init (commands : List Command) :
    App.Command (initCommand :: commands) "init" = some initCommand := by
  simp [App.Command, Command.HasName, initCommand]

theorem main_init (runCommand : Command) (helpAction : ActionFunc) (os : OS) (w : World)
    (exe : String) (rest : List String) (h : os.Args = exe :: "init" :: rest) :
    main runCommand helpAction os w =
      match initCommand.Run os { w with formatter := Formatter.json, logOutput := File.Stdout }
          { args := "init" :: rest, flags := [], globalFlags := [] } with
      | (w, Ret.returned (some err)) => logFatal w err
      | (w, Ret.returned none) => (w, Ret.returned ())
      | (w, Ret.replaced) => (w, Ret.replaced)
      | (w, Ret.exited code) => (w, Ret.exited code) := by
  unfold main App.Run
  simp only [h, List.tail_cons, flagParse_operand _ _ _ _ classify_init, List.map_nil,
    normalizeFlags_nil]
  have hcmd : App.Command
      (if (App.Command [initCommand, runCommand] "help").isNone = true then
        [initCommand, runCommand, helpCommand helpAction]
      else [initCommand, runCommand]) "init" = some initCommand := by
    split <;> exact App_Command_init _
  simp [Context.Bool, hcmd]


theorem initCommand_Run_operand (os : OS) (w : World) (c : String)
    (g : List (String × String)) (h : isOperand c = true) :
    initCommand.Run os w { args := ["init", c], flags := [], globalFlags := g } =
      RunContainerInitProcess os (logPrintf w Level.info "command: %s" [c]) c [] := by
  unfold Command.Run
  simp [initCommand, reorderArgs_single, flagParse_operand _ _ _ _ (classify_of_isOperand c h),
    normalizeFlags_nil, Context.Bool, Context.Get]

theorem main_init_trace (runCommand : Command) (helpAction : ActionFunc) (os : OS) (w : World)
    (exe : String) (rest : List String) (h : os.Args = exe :: "init" :: rest) :
    (main runCommand helpAction os w).1.trace =
      (initCommand.Run os { w with formatter := Formatter.json, logOutput := File.Stdout }
          { args := "init" :: rest, flags := [], globalFlags := [] }).1.trace ++
        (match (initCommand.Run os
            { w with formatter := Formatter.json, logOutput := File.Stdout }
            { args := "init" :: rest, flags := [], globalFlags := [] }).2 with
          | Ret.returned (some e) => [Event.log Level.fatal e, Event.exit 1]
          | _ => []) := by
  rw [main_init runCommand helpAction os w exe rest h]
  generalize initCommand.Run os { w with formatter := Formatter.json, logOutput := File.Stdout }
    { args := "init" :: rest, flags := [], globalFlags := [] } = R
  rcases R with ⟨w2, (_ | e) | _ | code⟩ <;> simp [logFatal, osExit, World.emit]

theorem main_init_ret (runCommand : Command) (helpAction : ActionFunc) (os : OS) (w : World)
    (exe : String) (rest : List String) (h : os.Args = exe :: "init" :: rest) :
    (main runCommand helpAction os w).2 =
        (match (initCommand.Run os
            { w with formatter := Formatter.json, logOutput := File.Stdout }
            { args := "init" :: rest, flags := [], globalFlags := [] }).2 with
          | Ret.returned (some _) => Ret.exited 1
          | Ret.returned none => Ret.returned ()
          | Ret.replaced => Ret.replaced
          | Ret.exited code => Ret.exited code) := by
  rw [main_init runCommand helpAction os w exe rest h]
  generalize initCommand.Run os { w with formatter := Formatter.json, logOutput := File.Stdout }
    { args := "init" :: rest, flags := [], globalFlags := [] } = R
  rcases R with ⟨w2, (_ | e) | _ | code⟩ <;> simp [logFatal, osExit, World.emit]


/-- Claim C4: whatever the two mounts and the exec answer, the system calls of
`RunContainerInitProcess` are, in this order, the mount on `/` with flags
MS_PRIVATE|MS_REC, the mount of type proc at `/proc` with flags
MS_NOEXEC|MS_NOSUID|MS_NODEV, and the exec of the command; the mounts performed are
these two and no other. -/
theorem RunContainerInitProcess_syscall_order (os : OS) (w : World) (command : String)
    (args : List String) :
    (issued w (RunContainerInitProcess os w command args).1).filter Event.isSyscall =
      [Event.mount "" "/" "" (MS_PRIVATE ||| MS_REC) "",
       Event.mount "proc" "/proc" "proc" (MS_NOEXEC ||| MS_NOSUID ||| MS_NODEV) "",
       Event.exec command [command] os.Environ] ∧
    (issued w (RunContainerInitProcess os w command args).1).filter Event.isMount =
      [Event.mount "" "/" "" (MS_PRIVATE ||| MS_REC) "",
       Event.mount "proc" "/proc" "proc" (MS_NOEXEC ||| MS_NOSUID ||| MS_NODEV) ""] := by
  rw [issued_append w _ _ (RunContainerInitProcess_trace os w command args)]
  cases os.answer (w.trace ++ [Event.mount "" "/" "" (MS_PRIVATE ||| MS_REC) "",
      Event.mount "proc" "/proc" "proc" (MS_NOEXEC ||| MS_NOSUID ||| MS_NODEV) "",
      Event.log Level.info "syscall.Exec-------执行开始",
      Event.exec command [command] os.Environ]) <;>
    simp [Event.isSyscall, Event.isMount]

/-- Claim C5: the image replacement requested by `RunContainerInitProcess` targets
the path `command` with argv `[command]` and the environment of the process as it
is; it is the only exec issued, and the parameter `args` has no influence on what the
function does. -/
theorem RunContainerInitProcess_exec_call (os : OS) (w : World) (command : String)
    (args args1 : List String) :
    (issued w (RunContainerInitProcess os w command args).1).filter Event.isExec =
      [Event.exec command [command] os.Environ] ∧
    RunContainerInitProcess os w command args = RunContainerInitProcess os w command args1 := by
  refine ⟨?_, rfl⟩
  rw [issued_append w _ _ (RunContainerInitProcess_trace os w command args)]
  cases os.answer (w.trace ++ [Event.mount "" "/" "" (MS_PRIVATE ||| MS_REC) "",
      Event.mount "proc" "/proc" "proc" (MS_NOEXEC ||| MS_NOSUID ||| MS_NODEV) "",
      Event.log Level.info "syscall.Exec-------执行开始",
      Event.exec command [command] os.Environ]) <;>
    simp [Event.isExec]

/-- Claim C6, evaluated on the code: when the init entry point is asked to run the
missing command `/no/such/command`, the exec fails, `RunContainerInitProcess` logs
the error and returns nil, and `main` returns, so the process ends with status 0.
In no run at all does `RunContainerInitProcess` return a non-nil error. -/
theorem main_init_missing_command (runCommand : Command) (helpAction : ActionFunc) :
    (∀ (os : OS) (w : World) (command : String) (args : List String) (e : GoError),
      (RunContainerInitProcess os w command args).2 ≠ Ret.returned (some e)) ∧
    (RunContainerInitProcess missingCommandOS World.start "/no/such/command" []).2 =
      Ret.returned none ∧
    (main runCommand helpAction missingCommandOS World.start).1.trace =
      [Event.logf Level.info "command: %s" ["/no/such/command"],
       Event.mount "" "/" "" (MS_PRIVATE ||| MS_REC) "",
       Event.mount "proc" "/proc" "proc" (MS_NOEXEC ||| MS_NOSUID ||| MS_NODEV) "",
       Event.log Level.info "syscall.Exec-------执行开始",
       Event.exec "/no/such/command" ["/no/such/command"] ["PATH=/usr/bin:/bin"],
       Event.logf Level.error "no such file or directory" [],
       Event.log Level.info "syscall.Exec-------执行完成"] ∧
    (main runCommand helpAction missingCommandOS World.start).2 = Ret.returned () ∧
    exitStatus (main runCommand helpAction missingCommandOS World.start).2 = some 0 := by
  have htr := main_init_trace runCommand helpAction missingCommandOS World.start
    "/proc/self/exe" ["/no/such/command"] rfl
  have hret := main_init_ret runCommand helpAction missingCommandOS World.start
    "/proc/self/exe" ["/no/such/command"] rfl
  rw [initCommand_Run_operand _ _ _ _ (by decide)] at htr hret
  refine ⟨?_, ?_, ?_, ?_, ?_⟩
  · intro os w command args e
    rw [RunContainerInitProcess_ret]
    cases os.answer _ <;> simp
  · simp [RunContainerInitProcess, syscallMount, syscallExec, logPrint, logPrintf, World.emit,
      World.start, missingCommandOS]
  · rw [htr]
    simp [RunContainerInitProcess, syscallMount, syscallExec, logPrint, logPrintf, World.emit,
      World.start, missingCommandOS]
  · rw [hret]
    simp [RunContainerInitProcess, syscallMount, syscallExec, logPrint, logPrintf, World.emit,
      World.start, missingCommandOS]
  · rw [hret]
    simp [RunContainerInitProcess, syscallMount, syscallExec, logPrint, logPrintf, World.emit,
      World.start, missingCommandOS, exitStatus]

/-! ## The launcher -/

/-- Claim C7: for every tty flag, command and operating system (so for every outcome
of process creation and of waiting), `StartContainer` ends in `os.Exit(-1)`, which a
parent observes as the non-zero status 255; two runs that differ in the operating
system, hence in what became of the child, end with the same status. -/
theorem StartContainer_exit_status (os os1 : OS) (w w1 : World) (tty : Bool) (cmd : String) :
    (StartContainer os w tty cmd).2 = Ret.exited (-1) ∧
    (StartContainer os w tty cmd).1.trace.getLast? = some (Event.exit (-1)) ∧
    exitStatus (StartContainer os w tty cmd).2 = some 255 ∧
    exitStatus (StartContainer os w tty cmd).2 ≠ some 0 ∧
    exitStatus (StartContainer os1 w1 tty cmd).2 = exitStatus (StartContainer os w tty cmd).2 := by
  refine ⟨StartContainer_ret os w tty cmd, ?_, ?_, ?_, ?_⟩
  · rw [StartContainer_trace]
    cases os.answer (w.trace ++ [Event.start (createInitProcess tty cmd)]) <;>
      simp [List.getLast?_append]
  · rw [StartContainer_ret]; decide
  · rw [StartContainer_ret]; decide
  · rw [StartContainer_ret, StartContainer_ret]

/-- Claim C8 fails as stated: when the operating system refuses to create the child,
`StartContainer` still calls `Wait` once although no child was created, so the number
of wait calls (1) differs from the number of children created (0). -/
theorem StartContainer_waits_without_child :
    waitCalls World.start (StartContainer unprivilegedOS World.start true "/bin/sh").1 = 1 ∧
    childrenCreated World.start (StartContainer unprivilegedOS World.start true "/bin/sh").1 = 0 ∧
    ¬ (waitCalls World.start (StartContainer unprivilegedOS World.start true "/bin/sh").1 =
        childrenCreated World.start (StartContainer unprivilegedOS World.start true "/bin/sh").1 ∧
       childrenCreated World.start (StartContainer unprivilegedOS World.start true "/bin/sh").1
        = 1) := by
  have hw : waitCalls World.start
      (StartContainer unprivilegedOS World.start true "/bin/sh").1 = 1 := by
    unfold waitCalls
    rw [issued_append _ _ _ (StartContainer_trace unprivilegedOS World.start true "/bin/sh")]
    simp [unprivilegedOS, World.start, Event.isWait]
  have hc : childrenCreated World.start
      (StartContainer unprivilegedOS World.start true "/bin/sh").1 = 0 := by
    unfold childrenCreated
    rw [StartContainer_children]
    simp [unprivilegedOS, World.start]
  refine ⟨hw, hc, ?_⟩
  rw [hw, hc]
  decide

/-- Claim C8 as amended: in every run of `StartContainer` there is exactly one call
of `Start` and then exactly one call of `Wait`, both on the descriptor built by
`createInitProcess`; one child is created when `Start` returns nil and none when it
returns an error, so the number of wait calls equals the number of children created
exactly when `Start` succeeded. -/
theorem StartContainer_one_wait (os : OS) (w : World) (tty : Bool) (cmd : String) :
    (issued w (StartContainer os w tty cmd).1).filter
        (fun e => e.isStart || e.isWait) =
      [Event.start (createInitProcess tty cmd), Event.wait (createInitProcess tty cmd)] ∧
    waitCalls w (StartContainer os w tty cmd).1 = 1 ∧
    childrenCreated w (StartContainer os w tty cmd).1 =
      (if os.answer (w.trace ++ [Event.start (createInitProcess tty cmd)]) = none
        then 1 else 0) ∧
    (waitCalls w (StartContainer os w tty cmd).1 =
        childrenCreated w (StartContainer os w tty cmd).1 ↔
      os.answer (w.trace ++ [Event.start (createInitProcess tty cmd)]) = none) := by
  unfold waitCalls childrenCreated
  rw [issued_append w _ _ (StartContainer_trace os w tty cmd), StartContainer_children]
  cases os.answer (w.trace ++ [Event.start (createInitProcess tty cmd)]) <;>
    simp [Event.isStart, Event.isWait]

/-- Claim C9: when `Start` fails with the error `e`, `StartContainer` logs `e`, goes
on to call `Wait` once and exits; leaving the log records aside, its effects are
start, wait, exit, the same as in any other run, in which `Start` may have
succeeded. -/
theorem StartContainer_start_failure (os os1 : OS) (w : World) (tty : Bool) (cmd : String)
    (e : GoError)
    (h : os.answer (w.trace ++ [Event.start (createInitProcess tty cmd)]) = some e) :
    issued w (StartContainer os w tty cmd).1 =
      [Event.start (createInitProcess tty cmd),
       Event.log Level.error e,
       Event.log Level.info ("parent.Wait() begin-----------" ++ toString os.Getpid),
       Event.wait (createInitProcess tty cmd),
       Event.log Level.info ("parent.Wait() end-----------" ++ toString os.Getpid),
       Event.exit (-1)] ∧
    (issued w (StartContainer os w tty cmd).1).filter (fun ev => !ev.isLog) =
      [Event.start (createInitProcess tty cmd), Event.wait (createInitProcess tty cmd),
       Event.exit (-1)] ∧
    (issued w (StartContainer os1 w tty cmd).1).filter (fun ev => !ev.isLog) =
      (issued w (StartContainer os w tty cmd).1).filter (fun ev => !ev.isLog) ∧
    (StartContainer os w tty cmd).2 = Ret.exited (-1) := by
  rw [issued_append w _ _ (StartContainer_trace os w tty cmd),
    issued_append w _ _ (StartContainer_trace os1 w tty cmd), h]
  refine ⟨by simp, by simp [Event.isLog], ?_, StartContainer_ret os w tty cmd⟩
  cases os1.answer (w.trace ++ [Event.start (createInitProcess tty cmd)]) <;>
    simp [Event.isLog]

/-- Witness for claim C9: a run in which `Start` is refused, compared with a run in
which every call succeeds. -/
theorem StartContainer_start_failure_witness :
    unprivilegedOS.answer (World.start.trace ++ [Event.start (createInitProcess true "/bin/sh")])
      = some "fork/exec /proc/self/exe: operation not permitted" ∧
    (issued World.start (StartContainer permissiveOS World.start true "/bin/sh").1).filter
        (fun ev => !ev.isLog) =
      (issued World.start (StartContainer unprivilegedOS World.start true "/bin/sh").1).filter
        (fun ev => !ev.isLog) :=
  ⟨by simp [unprivilegedOS, World.start],
   (StartContainer_start_failure unprivilegedOS permissiveOS World.start true "/bin/sh"
      "fork/exec /proc/self/exe: operation not permitted"
      (by simp [unprivilegedOS, World.start])).2.2.1⟩

/-! ## From the launcher to the bootstrapper -/

end Dockerx
